import Mathlib

/-!
Shallow embedding of the Ozon search-results scraper (src/parser.py) and
proofs of the specification claims about it.

The embedding models the parsed JSON values the Python code manipulates, the
subscript/attribute semantics of CPython that decide which exceptions are
raised (and whether `_get_product_info`'s `except (json.JSONDecodeError,
KeyError, IndexError)` clause catches them), the per-card extraction
`_get_card_info`, the search-page loop `get_searchpage_cards` with its Python
list slice, and the resource acquisition/teardown protocol of
`__aenter__` / `close`.

External collaborators (the network and the stdlib JSON decoder) are passed in
as oracles: `net : String -> Option String` maps a request URL to the response
body, `none` meaning the request raised a transport error, and
`loads : String -> Option Json` maps a body to its parsed document, `none`
meaning `json.JSONDecodeError`.
-/

/-- A parsed JSON value, as produced by Python `json.loads`. Numbers are
modelled as integers; no claim depends on float formatting. -/
inductive Json where
  | null : Json
  | bool : Bool → Json
  | num : Int → Json
  | str : String → Json
  | arr : List Json → Json
  | obj : List (String × Json) → Json
deriving Repr

/-- Exception classes relevant to `_get_product_info`: `caught` stands for the
classes named in its except clause (`json.JSONDecodeError`, `KeyError`,
`IndexError`); `uncaught` stands for every other exception (`TypeError`,
`AttributeError`, transport errors from `session.get`), which propagates to
`_get_card_info`'s blanket `except Exception`. -/
inductive PyExc where
  | caught : PyExc
  | uncaught : PyExc
deriving Repr, DecidableEq

/-- First-match lookup in the field list of a JSON object (CPython dict lookup;
`json.loads` never produces duplicate keys). -/
def lookupField (fs : List (String × Json)) (k : String) : Option Json :=
  match fs with
  | [] => none
  | (k2, v) :: rest => if k2 = k then some v else lookupField rest k

/-- Python subscript `j[k]` with a string key: on a dict a missing key raises
`KeyError` (caught class); on any non-dict value it raises `TypeError`
(uncaught). -/
def Json.subs (j : Json) (k : String) : Except PyExc Json :=
  match j with
  | .obj fs =>
    match lookupField fs k with
    | some v => .ok v
    | none => .error .caught
  | _ => .error .uncaught

/-- Python subscript `j[i]` with a non-negative int: on a list an out-of-range
index raises `IndexError` (caught); on a string it yields a one-character
string or `IndexError`; on a dict it raises `KeyError` (caught, since JSON
object keys are strings); on scalars it raises `TypeError` (uncaught). -/
def Json.subi (j : Json) (i : Nat) : Except PyExc Json :=
  match j with
  | .arr xs =>
    match xs.get? i with
    | some v => .ok v
    | none => .error .caught
  | .str s =>
    match s.data.get? i with
    | some c => .ok (.str (String.singleton c))
    | none => .error .caught
  | .obj _ => .error .caught
  | _ => .error .uncaught

/-- Python attribute access `.split` requires a `str`; on any other value it
raises `AttributeError` (uncaught). -/
def Json.asStr (j : Json) : Except PyExc String :=
  match j with
  | .str s => .ok s
  | _ => .error .uncaught

/-- Python `json.loads(x)` applied to a JSON value held in a document:
a malformed string raises `json.JSONDecodeError` (caught); a non-string
argument raises `TypeError` (uncaught). -/
def pyLoadsValue (loads : String → Option Json) (j : Json) : Except PyExc Json :=
  match j with
  | .str s =>
    match loads s with
    | some v => .ok v
    | none => .error .caught
  | _ => .error .uncaught

/-- Python `==` between a JSON value and a string literal: true exactly when
the value is that string (comparison across types is `False`, no exception). -/
def Json.eqStr (j : Json) (s : String) : Bool :=
  match j with
  | .str t => t == s
  | _ => false

/-- Accumulator pass over the characters of a string: collect maximal runs of
non-whitespace characters. -/
def splitWsAux : List Char → List Char → List String
  | [], acc => if acc = [] then [] else [String.mk acc.reverse]
  | c :: rest, acc =>
    if c.isWhitespace then
      if acc = [] then splitWsAux rest []
      else String.mk acc.reverse :: splitWsAux rest []
    else splitWsAux rest (c :: acc)

/-- Python `str.split()` with no argument: split on whitespace runs and
discard empty tokens (whitespace is modelled by `Char.isWhitespace`; the
extra Unicode space classes CPython also splits on play no role in any
claim). -/
def pySplitWs (s : String) : List String :=
  splitWsAux s.data []

/-- Python slice `s[1:-1]`: drop one character from each end (empty when the
string has at most two characters). -/
def pySlice1m1 (s : String) : String :=
  (s.drop 1).dropRight 1

/-- Python list slice `l[:n]` with an int bound: for a non-negative bound the
first `n` elements, for a negative bound all but the last `|n|` elements. -/
def pySliceTo {α : Type} (l : List α) (n : Int) : List α :=
  if 0 ≤ n then l.take n.toNat
  else l.take (l.length - (-n).toNat)

/-- Constant `URL_BASE` of src/parser.py. -/
def URL_BASE : String := "https://www.ozon.ru"

/-- Constant `URL_API` of src/parser.py. -/
def URL_API : String := URL_BASE ++ "/api/composer-api.bx/page/json/v2?url="

/-- Constant `DEFAULT_CARD_COUNT` of src/parser.py (the `count_cards` default
of `OzonScraper.__init__`). -/
def DEFAULT_CARD_COUNT : Int := 15

/-- Constant `ADULT_CONTENT_MARKER` of src/parser.py. -/
def ADULT_CONTENT_MARKER : String := "userAdultModal"

/-- Constant `ADULT_CONTENT_DESCRIPTION` of src/parser.py. -/
def ADULT_CONTENT_DESCRIPTION : String := "Товар для лиц старше 18 лет"

/-- The `ProductInfo` record of src/parser.py. Fields that the code copies
directly out of the parsed JSON keep their JSON value type (Python does not
coerce them); `url`, `price` and `price_with_card` are always built as Python
strings by the code. -/
structure ProductInfo where
  product_id : Json
  short_name : Json
  full_name : Json
  description : Json
  url : String
  price : Option String
  price_with_card : Option String
  image_url : Option Json
deriving Repr

/-- The error-sentinel record built at src/parser.py lines 116-117. -/
def errorProductInfo (product_url : String) : ProductInfo :=
  ⟨.str "unknown", .str "Error", .str "Error", .str "Failed to parse product info",
    product_url, none, none, none⟩

mutual

/-- Python `repr()` of a JSON value (CPython quotes strings with a single
quote; escape sequences inside quoted strings are not modelled, no claim
depends on them). -/
def Json.pyRepr : Json → String
  | .null => "None"
  | .bool b => if b then "True" else "False"
  | .num n => toString n
  | .str s => String.singleton (Char.ofNat 39) ++ s ++ String.singleton (Char.ofNat 39)
  | .arr xs => "[" ++ Json.pyReprList xs ++ "]"
  | .obj fs => "\x7b" ++ Json.pyReprFields fs ++ "\x7d"

/-- Comma-separated `repr` of list elements. -/
def Json.pyReprList : List Json → String
  | [] => ""
  | [x] => Json.pyRepr x
  | x :: y :: rest => Json.pyRepr x ++ ", " ++ Json.pyReprList (y :: rest)

/-- Comma-separated `repr` of dict entries. -/
def Json.pyReprFields : List (String × Json) → String
  | [] => ""
  | [(k, v)] => Json.pyRepr (.str k) ++ ": " ++ Json.pyRepr v
  | (k, v) :: f :: rest =>
    Json.pyRepr (.str k) ++ ": " ++ Json.pyRepr v ++ ", " ++ Json.pyReprFields (f :: rest)

end

/-- Python `str()` of a JSON value, as used by the f-string
`f"{price} {priceCurrency}"` at src/parser.py line 111. On a string, `str()`
is the string itself; on every other value it agrees with `repr()`. -/
def Json.pyFormat : Json → String
  | .str s => s
  | j => Json.pyRepr j

/-- The try-block body of `OzonScraper._get_product_info`
(src/parser.py lines 98-113), given the outcome of
`session.get(URL_API + product_url)` as `content` (`none` meaning the request
raised a transport error). Every subscript, `json.loads` call and the
adult-content comparison follow the source order; exceptions are threaded as
`Except PyExc`. -/
def tryProductInfo (loads : String → Option Json) (content : Option String)
    (product_url : String) : Except PyExc ProductInfo :=
  match content with
  | none => .error .uncaught
  | some raw =>
    match loads raw with
    | none => .error .caught
    | some json_data =>
      match json_data.subs "seo" with
      | .error e => .error e
      | .ok seo1 =>
        match seo1.subs "title" with
        | .error e => .error e
        | .ok full_name =>
          match json_data.subs "layout" with
          | .error e => .error e
          | .ok layout =>
            match layout.subi 0 with
            | .error e => .error e
            | .ok layout0 =>
              match layout0.subs "component" with
              | .error e => .error e
              | .ok component =>
                if component.eqStr ADULT_CONTENT_MARKER then
                  match full_name.asStr with
                  | .error e => .error e
                  | .ok fn =>
                    match (pySplitWs fn).getLast? with
                    | none => .error .caught
                    | some lastTok =>
                      .ok ⟨.str (pySlice1m1 lastTok), full_name, full_name,
                        .str ADULT_CONTENT_DESCRIPTION, product_url, none, none, none⟩
                else
                  match json_data.subs "seo" with
                  | .error e => .error e
                  | .ok seo2 =>
                    match seo2.subs "script" with
                    | .error e => .error e
                    | .ok script =>
                      match script.subi 0 with
                      | .error e => .error e
                      | .ok script0 =>
                        match script0.subs "innerHTML" with
                        | .error e => .error e
                        | .ok inner =>
                          match pyLoadsValue loads inner with
                          | .error e => .error e
                          | .ok script_data =>
                            match script_data.subs "description" with
                            | .error e => .error e
                            | .ok description =>
                              match script_data.subs "image" with
                              | .error e => .error e
                              | .ok image_url =>
                                match script_data.subs "offers" with
                                | .error e => .error e
                                | .ok offers1 =>
                                  match offers1.subs "price" with
                                  | .error e => .error e
                                  | .ok priceVal =>
                                    match script_data.subs "offers" with
                                    | .error e => .error e
                                    | .ok offers2 =>
                                      match offers2.subs "priceCurrency" with
                                      | .error e => .error e
                                      | .ok priceCur =>
                                        match script_data.subs "sku" with
                                        | .error e => .error e
                                        | .ok product_id =>
                                          .ok ⟨product_id, full_name, full_name, description,
                                            product_url,
                                            some (priceVal.pyFormat ++ " " ++ priceCur.pyFormat),
                                            none, some image_url⟩

/-- The whole of `OzonScraper._get_product_info` (src/parser.py lines 97-117):
the try body above, with the `except (json.JSONDecodeError, KeyError,
IndexError)` clause converting exactly the caught class into the
error-sentinel record, while any other exception keeps propagating
(`Except.error ()`). -/
def get_product_info (loads : String → Option Json) (net : String → Option String)
    (product_url : String) : Except Unit ProductInfo :=
  match tryProductInfo loads (net (URL_API ++ product_url)) product_url with
  | .ok info => .ok info
  | .error .caught => .ok (errorProductInfo product_url)
  | .error .uncaught => .error ()

/-- The DOM view of one search-result card, as `_get_card_info` observes it:
the result of `query_selector('a')` together with the `href` attribute of the
found element (`some none` is a link element whose `href` attribute is
absent), the inner text of the `query_selector('span.tsBody500Medium')`
element when present, and the inner text of the loyalty-price element when
present. -/
structure Card where
  card_url_element : Option (Option String)
  card_name_element : Option String
  price_with_card_element : Option String
deriving Repr

/-- `OzonScraper._get_card_info` (src/parser.py lines 119-144): drop the card
(`none`) when the link element, the `href` value, or the name element is
missing (Python falsiness makes an empty `href` a drop too); otherwise fetch
the product info, whose uncaught exceptions are absorbed by the blanket
`except Exception` clause into a drop; on success overwrite `price_with_card`
with the value scraped from the card. -/
def get_card_info (loads : String → Option Json) (net : String → Option String)
    (card : Card) : Option ProductInfo :=
  match card.card_url_element with
  | none => none
  | some hrefAttr =>
    match hrefAttr with
    | none => none
    | some card_url =>
      if card_url = "" then none
      else
        match card.card_name_element with
        | none => none
        | some _card_name =>
          let _product_url := URL_BASE ++ card_url
          let price_with_card := card.price_with_card_element
          match get_product_info loads net card_url with
          | .error _ => none
          | .ok info => some { info with price_with_card := price_with_card }

/-- The card loop of `OzonScraper.get_searchpage_cards`
(src/parser.py lines 156-163): append each non-`None` extraction result. -/
def process_cards (loads : String → Option Json) (net : String → Option String) :
    List Card → List ProductInfo
  | [] => []
  | card :: rest =>
    match get_card_info loads net card with
    | some info => info :: process_cards loads net rest
    | none => process_cards loads net rest

/-- `OzonScraper.get_searchpage_cards` (src/parser.py lines 146-163) after the
navigation, reload, network-idle wait and scrolling: the DOM state is the
ordered list of card views matched by `CARD_SELECTOR`, truncated by the Python
slice `cards[:self.count_cards]` before the extraction loop. -/
def get_searchpage_cards (loads : String → Option Json) (net : String → Option String)
    (count_cards : Int) (cards : List Card) : List ProductInfo :=
  process_cards loads net (pySliceTo cards count_cards)

/-- A card passes the identification guards of `_get_card_info`: link element
present, its `href` attribute present and non-empty, name element present. -/
def cardIdentified (c : Card) : Bool :=
  match c.card_url_element with
  | some (some href) => (!(href == "")) && c.card_name_element.isSome
  | _ => false

/-- The five resource layers of `OzonScraper`: the curl session, the page, the
browser context, the browser and the Playwright driver. -/
inductive Layer where
  | session : Layer
  | page : Layer
  | context : Layer
  | browser : Layer
  | playwright : Layer
deriving Repr, DecidableEq

/-- Which instance attributes of `OzonScraper` hold a live (truthy) resource.
`__init__` (src/parser.py lines 58-64) leaves `page`, `playwright`, `browser`
and `context` as `None` and does not set `session` at all. -/
structure AcquiredState where
  playwright : Bool
  browser : Bool
  context : Bool
  page : Bool
  session : Bool
deriving Repr, DecidableEq

/-- `OzonScraper.__aenter__` (src/parser.py lines 66-73) as a sequence of six
awaited steps: start the driver, launch the browser, open a context, open a
page, set the viewport, construct the curl session. `failStep` selects the
first step whose await raises (a `failStep` outside `0..5` means no failure).
The result is the acquired state when `__aenter__` returns or raises, paired
with whether it completed; Python calls `__aexit__` only in the completed
case. -/
def aenter (failStep : Option Nat) : AcquiredState × Bool :=
  if failStep = some 0 then (⟨false, false, false, false, false⟩, false)
  else if failStep = some 1 then (⟨true, false, false, false, false⟩, false)
  else if failStep = some 2 then (⟨true, true, false, false, false⟩, false)
  else if failStep = some 3 then (⟨true, true, true, false, false⟩, false)
  else if failStep = some 4 then (⟨true, true, true, true, false⟩, false)
  else if failStep = some 5 then (⟨true, true, true, true, false⟩, false)
  else (⟨true, true, true, true, true⟩, true)

/-- Truthiness of one scraper attribute, as tested by the `if` guards of
`close`. -/
def layerAcquired (st : AcquiredState) : Layer → Bool
  | .session => st.session
  | .page => st.page
  | .context => st.context
  | .browser => st.browser
  | .playwright => st.playwright

/-- The release order of `OzonScraper.close` (src/parser.py lines 78-89). -/
def closeOrder : List Layer := [.session, .page, .context, .browser, .playwright]

/-- The body of `OzonScraper.close` over a remaining release list: each layer
whose attribute is truthy gets its close awaited; if that await raises, the
exception propagates out of `close` and the remaining layers are not
attempted (there is no try/finally around the individual closes). Returns the
list of layers whose close was attempted. -/
def closeAttemptsFrom (st : AcquiredState) (closeFails : Layer → Bool) :
    List Layer → List Layer
  | [] => []
  | l :: rest =>
    if layerAcquired st l then
      if closeFails l then [l]
      else l :: closeAttemptsFrom st closeFails rest
    else closeAttemptsFrom st closeFails rest

/-- The layers whose close `OzonScraper.close` attempts. -/
def closeAttempts (st : AcquiredState) (closeFails : Layer → Bool) : List Layer :=
  closeAttemptsFrom st closeFails closeOrder

/-- One `async with OzonScraper(...)` run: `__aexit__` (which only calls
`close`) runs exactly when `__aenter__` completed without raising, whether or
not the body raised. Returns the list of layers whose release was attempted
on that exit path. -/
def scraper_run_teardown (failStep : Option Nat) (closeFails : Layer → Bool) : List Layer :=
  if (aenter failStep).2 then closeAttempts (aenter failStep).1 closeFails else []

/-- A network oracle on which every request raises a transport error. -/
def netDown : String → Option String := fun _ => none

/-- A network oracle on which every request returns the body `"BAD"`. -/
def netBad : String → Option String := fun _ => some "BAD"

/-- A JSON decoder oracle on which every body is malformed. -/
def loadsNone : String → Option Json := fun _ => none

/-- A fully identified card with no loyalty-price element. -/
def cardA : Card := ⟨some (some "/product/a"), some "Name A", none⟩

/-- A fully identified card carrying a loyalty-price text. -/
def cardB : Card := ⟨some (some "/p"), some "N", some "9 RUB"⟩

/-- A fully identified card used for the cap counterexample. -/
def cardC : Card := ⟨some (some "/c3"), some "n3", some "5 RUB"⟩

/-- The outer secondary-JSON document of the empty-fields scenario: empty
title, normal (non-gated) layout, and a script block whose body is the string
`"INNER"`. -/
def outerEmptyDoc : Json :=
  .obj [("seo", .obj [("title", .str ""),
                      ("script", .arr [.obj [("innerHTML", .str "INNER")]])]),
        ("layout", .arr [.obj [("component", .str "other")]])]

/-- The inner script JSON of the empty-fields scenario: empty description and
empty sku. -/
def innerEmptyDoc : Json :=
  .obj [("description", .str ""), ("image", .str "i"),
        ("offers", .obj [("price", .str "10"), ("priceCurrency", .str "RUB")]),
        ("sku", .str "")]

/-- A decoder oracle serving the empty-fields scenario documents. -/
def loadsEmptyFields : String → Option Json := fun s =>
  if s = "OUTER" then some outerEmptyDoc
  else if s = "INNER" then some innerEmptyDoc
  else none

/-- A network oracle on which every request returns the body `"OUTER"`. -/
def netOuter : String → Option String := fun _ => some "OUTER"

/-- The identified card of the empty-fields scenario. -/
def cardEmptyFields : Card := ⟨some (some "/p5"), some "N5", none⟩

/-- A secondary-JSON document whose first layout component is the adult
marker but which has no `seo` object at all. -/
def gatedNoSeoDoc : Json :=
  .obj [("layout", .arr [.obj [("component", .str "userAdultModal")]])]

/-- A decoder oracle serving `gatedNoSeoDoc` for the body `"G"`. -/
def loadsGatedNoSeo : String → Option Json := fun s =>
  if s = "G" then some gatedNoSeoDoc else none

/-- A network oracle on which every request returns the body `"G"`. -/
def netG : String → Option String := fun _ => some "G"

/-- A well-formed gated secondary-JSON document with a bracketed trailing id
in the title. -/
def gatedFullDoc : Json :=
  .obj [("seo", .obj [("title", .str "Restricted Item [999]")]),
        ("layout", .arr [.obj [("component", .str "userAdultModal")]])]

/-- A decoder oracle serving `gatedFullDoc` for the body `"GF"`. -/
def loadsGatedFull : String → Option Json := fun s =>
  if s = "GF" then some gatedFullDoc else none

/-- A network oracle on which every request returns the body `"GF"`. -/
def netGF : String → Option String := fun _ => some "GF"

/-- The card loop handles one card and then the rest: the output of a cons is
the optional record of the head followed by the output of the tail. -/
theorem process_cards_cons (loads : String → Option Json) (net : String → Option String)
    (card : Card) (rest : List Card) :
    process_cards loads net (card :: rest)
      = (get_card_info loads net card).toList ++ process_cards loads net rest := by
  cases h : get_card_info loads net card <;> simp [process_cards, h]

/-- The card loop emits at most one record per processed card. -/
theorem process_cards_length_le (loads : String → Option Json) (net : String → Option String)
    (cs : List Card) : (process_cards loads net cs).length ≤ cs.length := by
  induction cs with
  | nil => simp [process_cards]
  | cons c rest ih =>
    rw [process_cards_cons]
    cases get_card_info loads net c <;> simp <;> omega

/-- Every successful result of the try body carries the `product_url`
argument as its `url` field. -/
theorem tryProductInfo_url (loads : String → Option Json) (content : Option String)
    (u : String) (r : ProductInfo) (h : tryProductInfo loads content u = .ok r) :
    r.url = u := by
  unfold tryProductInfo at h
  repeat' split at h
  all_goals first
    | exact Except.noConfusion h
    | (injection h with h2; subst h2; rfl)

/-- Every successful result of `_get_product_info` carries the `product_url`
argument as its `url` field (the sentinel path uses it too). -/
theorem get_product_info_url (loads : String → Option Json) (net : String → Option String)
    (u : String) (r : ProductInfo) (h : get_product_info loads net u = .ok r) :
    r.url = u := by
  unfold get_product_info at h
  cases htry : tryProductInfo loads (net (URL_API ++ u)) u with
  | ok info =>
    rw [htry] at h
    injection h with h2
    subst h2
    exact tryProductInfo_url _ _ _ _ htry
  | error e =>
    cases e with
    | caught =>
      rw [htry] at h
      injection h with h2
      subst h2
      rfl
    | uncaught =>
      rw [htry] at h
      exact Except.noConfusion h

/-- Every record `_get_card_info` returns has a non-empty `url`: the record's
`url` is the card's `href`, which passed the emptiness guard. -/
theorem get_card_info_url_ne (loads : String → Option Json) (net : String → Option String)
    (c : Card) (r : ProductInfo) (h : get_card_info loads net c = some r) :
    r.url ≠ "" := by
  obtain ⟨l, n, p⟩ := c
  unfold get_card_info at h
  dsimp only at h
  cases l with
  | none => exact Option.noConfusion h
  | some hrefAttr =>
    cases hrefAttr with
    | none => exact Option.noConfusion h
    | some href =>
      dsimp only at h
      by_cases he : href = ""
      · rw [if_pos he] at h
        exact Option.noConfusion h
      · rw [if_neg he] at h
        cases n with
        | none => exact Option.noConfusion h
        | some nm =>
          dsimp only at h
          cases hp : get_product_info loads net href with
          | error e => rw [hp] at h; exact Option.noConfusion h
          | ok info =>
            rw [hp] at h
            injection h with h2
            subst h2
            simpa using (get_product_info_url loads net href info hp ▸ he)

/-- A card that fails any identification guard is dropped by
`_get_card_info`. -/
theorem get_card_info_unidentified (loads : String → Option Json)
    (net : String → Option String) (c : Card) (h : cardIdentified c = false) :
    get_card_info loads net c = none := by
  obtain ⟨l, n, p⟩ := c
  unfold cardIdentified at h
  unfold get_card_info
  dsimp only at h ⊢
  cases l with
  | none => rfl
  | some hrefAttr =>
    cases hrefAttr with
    | none => rfl
    | some href =>
      dsimp only at h ⊢
      by_cases he : href = ""
      · rw [if_pos he]
      · have hbf : (href == "") = false := by
          simpa using he
        rw [hbf] at h
        simp only [Bool.not_false, Bool.true_and] at h
        have hname : n = none := Option.not_isSome_iff_eq_none.mp (by simp [h])
        subst hname
        rw [if_neg he]

/-- Every record in the loop output comes from some processed card. -/
theorem mem_process_cards (loads : String → Option Json) (net : String → Option String)
    (cs : List Card) (r : ProductInfo) (h : r ∈ process_cards loads net cs) :
    ∃ c, c ∈ cs ∧ get_card_info loads net c = some r := by
  induction cs with
  | nil => simp [process_cards] at h
  | cons c rest ih =>
    rw [process_cards_cons] at h
    rcases List.mem_append.mp h with h1 | h1
    · cases hg : get_card_info loads net c with
      | none => rw [hg] at h1; simp at h1
      | some info =>
        rw [hg] at h1
        simp at h1
        exact ⟨c, List.mem_cons_self c rest, h1 ▸ hg⟩
    · obtain ⟨c2, hc2, hgc⟩ := ih h1
      exact ⟨c2, List.mem_cons_of_mem _ hc2, hgc⟩

/-- C8: reconciliation is deterministic and idempotent. The record derivation
of `_get_product_info` is a pure function of the secondary response body and
the card URL, so running it twice on the same input (same decoder, same body,
same URL) yields identical records, both at the level of the try body and of
the whole method for any fixed network oracle. -/
theorem reconciliation_deterministic (loads : String → Option Json)
    (content1 content2 : Option String) (u1 u2 : String)
    (h1 : content1 = content2) (h2 : u1 = u2) :
    tryProductInfo loads content1 u1 = tryProductInfo loads content2 u2 ∧
    ∀ net : String → Option String,
      get_product_info loads net u1 = get_product_info loads net u2 := by
  subst h1
  subst h2
  exact ⟨rfl, fun _ => rfl⟩

/-- Witness for `reconciliation_deterministic` at a concrete gated document. -/
theorem reconciliation_deterministic_witness :
    tryProductInfo loadsGatedFull (some "GF") "/gf"
        = tryProductInfo loadsGatedFull (some "GF") "/gf" ∧
    ∀ net : String → Option String,
      get_product_info loadsGatedFull net "/gf" = get_product_info loadsGatedFull net "/gf" :=
  reconciliation_deterministic loadsGatedFull (some "GF") (some "GF") "/gf" "/gf" rfl rfl

/-- C9: the text content of the name element is never used in any field of
the emitted record. Two cards that differ only in the inner text of their
name element (both present) produce identical extraction results, for every
decoder and network oracle. -/
theorem card_name_text_unused (loads : String → Option Json) (net : String → Option String)
    (link : Option (Option String)) (price : Option String) (n1 n2 : String) :
    get_card_info loads net ⟨link, some n1, price⟩
      = get_card_info loads net ⟨link, some n2, price⟩ := by
  cases link with
  | none => rfl
  | some a =>
    cases a with
    | none => rfl
    | some href => rfl

/-- C10: a negative `count_cards` makes the slice `cards[:count_cards]` drop
the last `|count_cards|` cards of DOM order instead of bounding the count;
in particular with `count_cards = -1` the number of processed cards is
`n - 1`, and the pipeline runs the extractor exactly on that shortened
prefix. -/
theorem negative_cap_drops_from_end (loads : String → Option Json)
    (net : String → Option String) (cards : List Card) (count : Int)
    (h : count < 0) :
    pySliceTo cards count = cards.take (cards.length - (-count).toNat) ∧
    (pySliceTo cards (-1)).length = cards.length - 1 ∧
    get_searchpage_cards loads net count cards
      = process_cards loads net (cards.take (cards.length - (-count).toNat)) := by
  have hn : ¬ (0 ≤ count) := by omega
  refine ⟨by simp [pySliceTo, hn], ?_, by simp [get_searchpage_cards, pySliceTo, hn]⟩
  have hm1 : ¬ (0 ≤ (-1 : Int)) := by decide
  simp [pySliceTo, hm1, List.length_take]

/-- Witness for `negative_cap_drops_from_end` with three cards and a cap of
minus two. -/
theorem negative_cap_drops_from_end_witness :
    pySliceTo [cardA, cardB, cardC] (-2)
        = [cardA, cardB, cardC].take ([cardA, cardB, cardC].length - (-(-2) : Int).toNat) ∧
    (pySliceTo [cardA, cardB, cardC] (-1)).length = [cardA, cardB, cardC].length - 1 ∧
    get_searchpage_cards loadsNone netDown (-2) [cardA, cardB, cardC]
      = process_cards loadsNone netDown
          ([cardA, cardB, cardC].take ([cardA, cardB, cardC].length - (-(-2) : Int).toNat)) :=
  negative_cap_drops_from_end loadsNone netDown [cardA, cardB, cardC] (-2) (by decide)

/-- C7 counterexample: with the configured cap `count_cards = -1` and two
matching card elements, one card is processed and one record emitted, so the
pipeline does not extract at most `count_cards` cards; the claim fails for
negative configured caps. -/
theorem card_cap_counterexample :
    pySliceTo [cardC, cardC] (-1) = [cardC] ∧
    ¬ (((pySliceTo [cardC, cardC] (-1)).length : Int) ≤ -1) ∧
    (get_searchpage_cards loadsNone netBad (-1) [cardC, cardC]).length = 1 ∧
    ¬ (((get_searchpage_cards loadsNone netBad (-1) [cardC, cardC]).length : Int) ≤ -1) := by
  refine ⟨rfl, ?_, rfl, ?_⟩
  · rw [show (pySliceTo [cardC, cardC] (-1)).length = 1 from rfl]
    decide
  · rw [show (get_searchpage_cards loadsNone netBad (-1) [cardC, cardC]).length = 1 from rfl]
    decide

/-- C7 amended: for every DOM state and every non-negative configured cap,
the pipeline runs the extractor on at most `count_cards` cards, taken from
the start of DOM order (the slice is exactly the prefix of length
`count_cards`), the emitted records never exceed that cap, and the default
cap is 15. -/
theorem card_cap_nonnegative (loads : String → Option Json) (net : String → Option String)
    (count : Int) (cards : List Card) (h : 0 ≤ count) :
    get_searchpage_cards loads net count cards
        = process_cards loads net (cards.take count.toNat) ∧
    (pySliceTo cards count).length ≤ count.toNat ∧
    (get_searchpage_cards loads net count cards).length ≤ count.toNat ∧
    DEFAULT_CARD_COUNT = 15 := by
  have hslice : pySliceTo cards count = cards.take count.toNat := by
    simp [pySliceTo, h]
  refine ⟨by simp [get_searchpage_cards, hslice], ?_, ?_, rfl⟩
  · rw [hslice]
    simp [List.length_take]
  · calc (get_searchpage_cards loads net count cards).length
        ≤ (pySliceTo cards count).length :=
          process_cards_length_le loads net (pySliceTo cards count)
      _ ≤ count.toNat := by rw [hslice]; simp [List.length_take]

/-- Witness for `card_cap_nonnegative` at the default cap of 15 over two
concrete cards. -/
theorem card_cap_nonnegative_witness :
    get_searchpage_cards loadsNone netBad 15 [cardA, cardB]
        = process_cards loadsNone netBad ([cardA, cardB].take (15 : Int).toNat) ∧
    (pySliceTo [cardA, cardB] 15).length ≤ (15 : Int).toNat ∧
    (get_searchpage_cards loadsNone netBad 15 [cardA, cardB]).length ≤ (15 : Int).toNat ∧
    DEFAULT_CARD_COUNT = 15 :=
  card_cap_nonnegative loadsNone netBad 15 [cardA, cardB] (by decide)

/-- When the secondary response body arrives but fails JSON decoding, the
except clause of `_get_product_info` turns the `json.JSONDecodeError` into
the error-sentinel record. -/
theorem get_product_info_parse_failure (loads : String → Option Json)
    (net : String → Option String) (u content : String)
    (h4 : net (URL_API ++ u) = some content) (h5 : loads content = none) :
    get_product_info loads net u = .ok (errorProductInfo u) := by
  unfold get_product_info tryProductInfo
  rw [h4]
  dsimp only
  rw [h5]

/-- When the secondary fetch raises a transport error, `_get_product_info`
does not catch it: the exception propagates. -/
theorem get_product_info_transport (loads : String → Option Json)
    (net : String → Option String) (u : String)
    (h : net (URL_API ++ u) = none) :
    get_product_info loads net u = .error () := by
  unfold get_product_info tryProductInfo
  rw [h]

/-- For an identified card, `_get_card_info` is determined by the outcome of
`_get_product_info`: a propagated exception drops the card, a returned record
is emitted with its `price_with_card` overwritten by the scraped value. -/
theorem get_card_info_identified (loads : String → Option Json)
    (net : String → Option String) (card : Card) (href nm : String)
    (h1 : card.card_url_element = some (some href)) (h2 : href ≠ "")
    (h3 : card.card_name_element = some nm) :
    get_card_info loads net card
      = match get_product_info loads net href with
        | .error _ => none
        | .ok info => some { info with price_with_card := card.price_with_card_element } := by
  obtain ⟨l, n, p⟩ := card
  have h1l : l = some (some href) := h1
  have h3n : n = some nm := h3
  subst h1l
  subst h3n
  unfold get_card_info
  dsimp only
  rw [if_neg h2]

/-- C1 counterexample: `cardA` is fully identified (link, non-empty href and
name present) and its secondary fetch fails with a transport error, yet the
pipeline emits nothing for it instead of the sentinel-error record: the card
is omitted. -/
theorem transport_error_omits_card :
    cardIdentified cardA = true ∧
    netDown (URL_API ++ "/product/a") = none ∧
    get_card_info loadsNone netDown cardA = none ∧
    get_searchpage_cards loadsNone netDown 15 [cardA] = [] :=
  ⟨rfl, rfl, rfl, rfl⟩

/-- C1 amended: for every identified card, a secondary body that fails JSON
parsing downgrades the card to the sentinel-error record (with the scraped
loyalty price) and the pipeline continues with the next card; a secondary
fetch that fails with a transport error instead drops the card entirely (no
record) and the pipeline also continues with the next card. -/
theorem parse_failure_sentinel_transport_drop (loads : String → Option Json)
    (net : String → Option String) (card : Card) (rest : List Card)
    (href nm content : String)
    (h1 : card.card_url_element = some (some href)) (h2 : href ≠ "")
    (h3 : card.card_name_element = some nm)
    (h4 : net (URL_API ++ href) = some content) (h5 : loads content = none) :
    (get_card_info loads net card
        = some { errorProductInfo href with price_with_card := card.price_with_card_element } ∧
      process_cards loads net (card :: rest)
        = { errorProductInfo href with price_with_card := card.price_with_card_element }
            :: process_cards loads net rest) ∧
    ∀ net2 : String → Option String, net2 (URL_API ++ href) = none →
      get_card_info loads net2 card = none ∧
      process_cards loads net2 (card :: rest) = process_cards loads net2 rest := by
  have hmain := get_card_info_identified loads net card href nm h1 h2 h3
  rw [get_product_info_parse_failure loads net href content h4 h5] at hmain
  refine ⟨⟨hmain, ?_⟩, ?_⟩
  · rw [process_cards_cons, hmain]
    rfl
  · intro net2 hnet2
    have hm2 := get_card_info_identified loads net2 card href nm h1 h2 h3
    rw [get_product_info_transport loads net2 href hnet2] at hm2
    exact ⟨hm2, by rw [process_cards_cons, hm2]; rfl⟩

/-- Witness for `parse_failure_sentinel_transport_drop` on a concrete card
whose fetched body is unparseable. -/
theorem parse_failure_sentinel_transport_drop_witness :
    (get_card_info loadsNone netBad cardB
        = some { errorProductInfo "/p" with
                   price_with_card := cardB.price_with_card_element } ∧
      process_cards loadsNone netBad [cardB]
        = [{ errorProductInfo "/p" with
               price_with_card := cardB.price_with_card_element }]) ∧
    ∀ net2 : String → Option String, net2 (URL_API ++ "/p") = none →
      get_card_info loadsNone net2 cardB = none ∧
      process_cards loadsNone net2 [cardB] = process_cards loadsNone net2 [] :=
  parse_failure_sentinel_transport_drop loadsNone netBad cardB [] "/p" "N" "BAD"
    rfl (by decide) rfl rfl rfl

/-- C2 counterexample: enrichment of the identified card `cardB` fails (its
body does not parse) and the sentinel-error record is emitted, but the
emitted record carries the scraped loyalty price `"9 RUB"` in
`price_with_card` rather than null, because `_get_card_info` overwrites that
field after the sentinel is built. -/
theorem sentinel_price_with_card_not_null :
    get_card_info loadsNone netBad cardB
      = some ⟨.str "unknown", .str "Error", .str "Error",
          .str "Failed to parse product info", "/p", none, some "9 RUB", none⟩ ∧
    (some "9 RUB" : Option String) ≠ none :=
  ⟨rfl, by simp⟩

/-- C2 amended: whenever enrichment of an identified card fails and the
sentinel-error record is produced, the emitted record has product id
`"unknown"`, short and full name `"Error"`, description
`"Failed to parse product info"`, url equal to the card's relative href,
price and image url null, and `price_with_card` equal to the loyalty-price
text scraped from the card (null exactly when the card renders none). -/
theorem sentinel_record_fields (loads : String → Option Json)
    (net : String → Option String) (card : Card) (href nm : String)
    (h1 : card.card_url_element = some (some href)) (h2 : href ≠ "")
    (h3 : card.card_name_element = some nm)
    (h4 : get_product_info loads net href = .ok (errorProductInfo href)) :
    get_card_info loads net card
      = some ⟨.str "unknown", .str "Error", .str "Error",
          .str "Failed to parse product info", href, none,
          card.price_with_card_element, none⟩ := by
  have hmain := get_card_info_identified loads net card href nm h1 h2 h3
  rw [h4] at hmain
  exact hmain

/-- Witness for `sentinel_record_fields` on the concrete card `cardB`. -/
theorem sentinel_record_fields_witness :
    get_card_info loadsNone netBad cardB
      = some ⟨.str "unknown", .str "Error", .str "Error",
          .str "Failed to parse product info", "/p", none,
          cardB.price_with_card_element, none⟩ :=
  sentinel_record_fields loadsNone netBad cardB "/p" "N" rfl (by decide) rfl rfl

/-- C3 counterexample: `cardC` has its link element, a non-empty href and its
name element all present, yet the pipeline appends zero output entities for
it, because its secondary fetch raises a transport error that the except
clause of `_get_product_info` does not catch. -/
theorem identified_card_zero_entities :
    cardIdentified cardC = true ∧
    netDown (URL_API ++ "/c3") = none ∧
    get_searchpage_cards loadsNone netDown 15 [cardC] = [] :=
  ⟨rfl, rfl, rfl⟩

/-- C3 amended: the pipeline appends the head card's optional record and
continues with the rest, so every card yields at most one entity; a card
with link, non-empty href and name present yields exactly one entity iff its
`_get_product_info` call returns instead of raising an uncaught exception;
and every card missing the link, the href or the name yields zero entities. -/
theorem per_card_output_arity (loads : String → Option Json)
    (net : String → Option String) (card : Card) (rest : List Card)
    (href nm : String)
    (h1 : card.card_url_element = some (some href)) (h2 : href ≠ "")
    (h3 : card.card_name_element = some nm) :
    (get_card_info loads net card).isSome = (get_product_info loads net href).isOk ∧
    process_cards loads net (card :: rest)
      = (get_card_info loads net card).toList ++ process_cards loads net rest ∧
    ∀ c2 : Card, cardIdentified c2 = false → get_card_info loads net c2 = none := by
  refine ⟨?_, process_cards_cons loads net card rest,
    fun c2 hc2 => get_card_info_unidentified loads net c2 hc2⟩
  have hmain := get_card_info_identified loads net card href nm h1 h2 h3
  rw [hmain]
  cases hp : get_product_info loads net href with
  | error e => simp [Except.isOk, Except.toBool]
  | ok info => simp [Except.isOk, Except.toBool]

/-- Witness for `per_card_output_arity` on the concrete card `cardB` with an
unparseable secondary body. -/
theorem per_card_output_arity_witness :
    (get_card_info loadsNone netBad cardB).isSome
        = (get_product_info loadsNone netBad "/p").isOk ∧
    process_cards loadsNone netBad [cardB]
      = (get_card_info loadsNone netBad cardB).toList ++ process_cards loadsNone netBad [] ∧
    ∀ c2 : Card, cardIdentified c2 = false → get_card_info loadsNone netBad c2 = none :=
  per_card_output_arity loadsNone netBad cardB [] "/p" "N" rfl (by decide) rfl

/-- C4 counterexample: when `new_context()` raises during `__aenter__`, the
driver and browser layers are already acquired but no teardown is attempted
at all (Python never calls `__aexit__` after a failed `__aenter__`); and on a
fully successful acquisition, a failure while closing the session layer
prevents the release attempts for every remaining layer. -/
theorem teardown_not_guaranteed :
    (aenter (some 2)).1.browser = true ∧
    (aenter (some 2)).1.playwright = true ∧
    scraper_run_teardown (some 2) (fun _ => false) = [] ∧
    scraper_run_teardown none
        (fun l => match l with | Layer.session => true | _ => false)
      = [Layer.session] :=
  ⟨rfl, rfl, rfl, rfl⟩

/-- C4 amended: teardown runs only on the exit paths where the whole
acquisition succeeded; there it attempts the layers in order session, page,
context, browser, driver, releasing all five when no close raises and
stopping at the first close that raises; on an exit path where acquisition
raised partway, no release is attempted for any acquired layer. -/
theorem teardown_actual_behaviour (failStep : Option Nat) (closeFails : Layer → Bool) :
    ((aenter failStep).2 = false → scraper_run_teardown failStep closeFails = []) ∧
    ((aenter failStep).2 = true → (∀ l, closeFails l = false) →
      scraper_run_teardown failStep closeFails = closeOrder) ∧
    ((aenter failStep).2 = true → closeFails Layer.session = true →
      scraper_run_teardown failStep closeFails = [Layer.session]) := by
  have hstate : (aenter failStep).2 = true →
      (aenter failStep).1 = ⟨true, true, true, true, true⟩ := by
    intro h
    unfold aenter at h ⊢
    split_ifs at h ⊢
    simp_all
  refine ⟨?_, ?_, ?_⟩
  · intro h
    unfold scraper_run_teardown
    rw [h]
    rfl
  · intro h hcf
    unfold scraper_run_teardown
    rw [h, hstate h]
    simp [closeAttempts, closeAttemptsFrom, closeOrder, layerAcquired, hcf]
  · intro h hsession
    unfold scraper_run_teardown
    rw [h, hstate h]
    simp [closeAttempts, closeAttemptsFrom, closeOrder, layerAcquired, hsession]

/-- Witness for `teardown_actual_behaviour` at a failing third acquisition
step and at an all-successful close. -/
theorem teardown_actual_behaviour_witness :
    ((aenter (some 2)).2 = false →
        scraper_run_teardown (some 2) (fun _ : Layer => false) = []) ∧
    ((aenter (some 2)).2 = true → (∀ l : Layer, (fun _ : Layer => false) l = false) →
        scraper_run_teardown (some 2) (fun _ : Layer => false) = closeOrder) ∧
    ((aenter (some 2)).2 = true → (fun _ : Layer => false) Layer.session = true →
        scraper_run_teardown (some 2) (fun _ : Layer => false) = [Layer.session]) :=
  teardown_actual_behaviour (some 2) (fun _ : Layer => false)

/-- C5 counterexample: a normal secondary document whose `title`, `sku` and
`description` are empty strings makes the pipeline emit a record whose
`product_id`, `short_name`, `full_name` and `description` are all empty,
so the non-emptiness invariant fails for every field the JSON supplies. -/
theorem emitted_record_empty_fields :
    get_searchpage_cards loadsEmptyFields netOuter 15 [cardEmptyFields]
      = [⟨.str "", .str "", .str "", .str "", "/p5", some "10 RUB", none,
           some (.str "i")⟩] ∧
    ((get_searchpage_cards loadsEmptyFields netOuter 15 [cardEmptyFields]).head?.map
        ProductInfo.product_id) = some (Json.str "") :=
  ⟨rfl, rfl⟩

/-- C5 amended: every record the pipeline emits has a non-empty `url` (the
href passed the emptiness guard); the other identity fields mirror the
secondary JSON, or the fixed strings of the sentinel record, and the code
does not enforce their non-emptiness. -/
theorem emitted_url_nonempty (loads : String → Option Json)
    (net : String → Option String) (count : Int) (cards : List Card)
    (r : ProductInfo) (h : r ∈ get_searchpage_cards loads net count cards) :
    r.url ≠ "" := by
  obtain ⟨c, _, hc⟩ :=
    mem_process_cards loads net (pySliceTo cards count) r h
  exact get_card_info_url_ne loads net c r hc

/-- Witness for `emitted_url_nonempty` on the concrete sentinel record
emitted for `cardB`. -/
theorem emitted_url_nonempty_witness :
    (⟨Json.str "unknown", Json.str "Error", Json.str "Error",
        Json.str "Failed to parse product info", "/p", none, some "9 RUB",
        none⟩ : ProductInfo).url ≠ "" :=
  emitted_url_nonempty loadsNone netBad 15 [cardB] _ (List.Mem.head _)

/-- C6 counterexample: a secondary document whose first layout component
equals the adult-content marker but which lacks the `seo` object entirely
takes the error-sentinel path (`KeyError` on `"seo"` is caught), so the
resulting record's description is the parse-failure string, not the fixed
adult sentinel, and its product id is `"unknown"`, not derived from any
title. -/
theorem gated_marker_without_title :
    ((gatedNoSeoDoc.subs "layout").bind fun layout =>
        (layout.subi 0).bind fun layout0 => layout0.subs "component")
      = Except.ok (Json.str ADULT_CONTENT_MARKER) ∧
    get_product_info loadsGatedNoSeo netG "/g" = .ok (errorProductInfo "/g") ∧
    (errorProductInfo "/g").description ≠ Json.str ADULT_CONTENT_DESCRIPTION := by
  refine ⟨rfl, rfl, ?_⟩
  simp only [errorProductInfo, ADULT_CONTENT_DESCRIPTION, ne_eq, Json.str.injEq]
  decide

/-- C6 amended: for every secondary document whose first layout component
equals the adult-content marker and whose `seo.title` is a string with at
least one whitespace-delimited token, the derived record has the fixed adult
sentinel as description, null price and image url, the title as short and
full name, and as product id the last token of the title with one character
stripped from each end; in particular the title
`"Restricted Item [999]"` yields product id `"999"`. -/
theorem gated_record_shape (loads : String → Option Json)
    (net : String → Option String) (url content title lastTok : String)
    (j seo layout layout0 : Json)
    (h1 : net (URL_API ++ url) = some content)
    (h2 : loads content = some j)
    (h3 : j.subs "seo" = .ok seo)
    (h4 : seo.subs "title" = .ok (.str title))
    (h5 : j.subs "layout" = .ok layout)
    (h6 : layout.subi 0 = .ok layout0)
    (h7 : layout0.subs "component" = .ok (.str ADULT_CONTENT_MARKER))
    (h8 : (pySplitWs title).getLast? = some lastTok) :
    get_product_info loads net url
      = .ok ⟨.str (pySlice1m1 lastTok), .str title, .str title,
          .str ADULT_CONTENT_DESCRIPTION, url, none, none, none⟩ ∧
    pySplitWs "Restricted Item [999]" = ["Restricted", "Item", "[999]"] ∧
    pySlice1m1 "[999]" = "999" := by
  refine ⟨?_, by decide, rfl⟩
  unfold get_product_info tryProductInfo
  rw [h1]
  dsimp only
  rw [h2]
  dsimp only
  rw [h3]
  dsimp only
  rw [h4]
  dsimp only
  rw [h5]
  dsimp only
  rw [h6]
  dsimp only
  rw [h7]
  dsimp only
  rw [show Json.eqStr (.str ADULT_CONTENT_MARKER) ADULT_CONTENT_MARKER = true by
    simp [Json.eqStr]]
  dsimp only [Json.asStr]
  rw [h8]
  rw [if_pos rfl]

/-- Witness for `gated_record_shape` on the concrete gated document with
title `"Restricted Item [999]"`. -/
theorem gated_record_shape_witness :
    get_product_info loadsGatedFull netGF "/gf"
      = .ok ⟨.str (pySlice1m1 "[999]"), .str "Restricted Item [999]",
          .str "Restricted Item [999]", .str ADULT_CONTENT_DESCRIPTION,
          "/gf", none, none, none⟩ ∧
    pySplitWs "Restricted Item [999]" = ["Restricted", "Item", "[999]"] ∧
    pySlice1m1 "[999]" = "999" :=
  gated_record_shape loadsGatedFull netGF "/gf" "GF" "Restricted Item [999]" "[999]"
    gatedFullDoc (.obj [("title", .str "Restricted Item [999]")])
    (.arr [.obj [("component", .str "userAdultModal")]])
    (.obj [("component", .str "userAdultModal")])
    rfl rfl rfl rfl rfl rfl rfl (by decide)
